import Mathlib

/-!
Verification of the self-update orchestrator (`src/singletons/Updates.cpp`).

The C++ class `Updates` is embedded shallowly:

* `Status` mirrors the `Updates::Status` enumeration.
* `UpdatesState` mirrors the mutable fields of the singleton
  (`status_`, `currentVersion_`, `onlineVersion_`, `isDowngrade_`,
  `updateExe_`, `updatePortable_`, `updateGuideLink_`).
* Asynchronous collaborators (network fetch, file write, process launch)
  are passed in as oracle values describing the one outcome the callback
  observes, and every externally observable side effect is recorded in an
  `Event` trace.  A network timeout is delivered as `FetchResult.failure`,
  exactly like any other network error, since the timeout fires the same
  error path of the request object.
* Platform-conditional compilation (`Q_OS_WIN` / `Q_OS_MACOS` /
  `Q_OS_LINUX` / anything else) becomes a `Platform` parameter.

The third-party `semver` library used by `Updates::isDowngradeOf` is not
part of the repository sources, so its parser and comparator are modelled
from the specification (see the doc comments on `semverFromString` and
`semverLt`).
-/

namespace Chatterino

/-- The `Updates::Status` enumeration from `Updates.hpp` /
`Updates.cpp`. -/
inductive Status where
  | Idle
  | Searching
  | UpdateAvailable
  | NoUpdateAvailable
  | SearchFailed
  | Downloading
  | DownloadFailed
  | WriteFileFailed
deriving DecidableEq, Repr

/-- The mutable fields of the `Updates` singleton. -/
structure UpdatesState where
  status_ : Status
  currentVersion_ : String
  onlineVersion_ : String
  isDowngrade_ : Bool
  updateExe_ : String
  updatePortable_ : String
  updateGuideLink_ : String
deriving DecidableEq, Repr

/-- Externally observable side effects of the orchestrator.  File paths
record only the file name passed to `combinePath`; the directory comes
from the external `Paths` collaborator. -/
inductive Event where
  | networkRequest (url : String)
  | statusChanged (s : Status)
  | messageBox
  | openUrl (url : String)
  | fileWrite (path : String)
  | processLaunch (path : String)
  | exitRequested
  | assertionFailure
deriving DecidableEq, Repr

/-- `Updates::setStatus_` (Updates.cpp lines 370-379): store the new
status and publish it, but only when it differs from the stored one. -/
def setStatus_ (st : UpdatesState) (s : Status) : UpdatesState × List Event :=
  if st.status_ ≠ s then
    ({ st with status_ := s }, [Event.statusChanged s])
  else
    (st, [])

/-! ### Spec-modelled semantic-version layer

`Updates::isDowngradeOf` calls `semver::version::from_string_noexcept`
and `operator<` from the vendored `semver` library, whose sources are not
in the repository.  They are modelled from the specification. -/

/-- Consume a maximal run of leading decimal digits. -/
def takeDigits : List Char → List Char × List Char
  | [] => ([], [])
  | c :: cs =>
    if c.isDigit then
      let r := takeDigits cs
      (c :: r.1, r.2)
    else
      ([], c :: cs)

/-- Decimal value of a digit run. -/
def digitsToNat (ds : List Char) : Nat :=
  ds.foldl (fun n c => n * 10 + (c.toNat - 48)) 0

/-- A multi-digit numeric component must not start with `0`. -/
def hasLeadingZero : List Char → Bool
  | '0' :: _ :: _ => true
  | _ => false

/-- A pre-release identifier: numeric identifiers compare numerically,
alphanumeric ones lexically. -/
inductive PreId where
  | num (n : Nat)
  | str (s : String)
deriving DecidableEq, Repr

/-- A parsed semantic version: `major.minor.patch` with an optional
pre-release identifier list (build metadata is validated but ignored for
precedence). -/
structure SemVer where
  major : Nat
  minor : Nat
  patch : Nat
  pre : List PreId
deriving DecidableEq, Repr

/-- Characters allowed in pre-release / build identifiers. -/
def validIdChar (c : Char) : Bool :=
  c.isAlphanum || c = '-'

/-- Parse one pre-release identifier. -/
def parsePreId (cs : List Char) : Option PreId :=
  if cs.isEmpty then none
  else if cs.all Char.isDigit then
    if hasLeadingZero cs then none else some (PreId.num (digitsToNat cs))
  else if cs.all validIdChar then some (PreId.str (String.mk cs))
  else none

/-- Parse a dot-separated pre-release identifier list. -/
def parsePreIds : List (List Char) → Option (List PreId)
  | [] => some []
  | g :: gs =>
    match parsePreId g, parsePreIds gs with
    | some i, some rest => some (i :: rest)
    | _, _ => none

/-- Build metadata: dot-separated, nonempty, alphanumeric-or-hyphen
identifiers. -/
def validBuildIds (groups : List (List Char)) : Bool :=
  groups.all fun g => !g.isEmpty && g.all validIdChar

/-- Split at the first `+`, separating pre-release text from build
metadata. -/
def splitAtPlus : List Char → List Char × Option (List Char)
  | [] => ([], none)
  | c :: cs =>
    if c = '+' then ([], some cs)
    else
      let r := splitAtPlus cs
      (c :: r.1, r.2)

/-- Parse what follows `major.minor.patch`: nothing, `-pre`, `-pre+build`
or `+build`. -/
def parseTail : List Char → Option (List PreId)
  | [] => some []
  | c :: cs =>
    if c = '-' then
      let r := splitAtPlus cs
      match parsePreIds (r.1.splitOn '.') with
      | none => none
      | some ids =>
        match r.2 with
        | none => some ids
        | some b => if validBuildIds (b.splitOn '.') then some ids else none
    else if c = '+' then
      if validBuildIds (cs.splitOn '.') then some [] else none
    else none

/-- Parse `major.minor.patch` followed by `parseTail`. -/
def parseMMP (s : List Char) : Option SemVer :=
  let d1 := takeDigits s
  if d1.1.isEmpty || hasLeadingZero d1.1 then none
  else
    match d1.2 with
    | '.' :: r2 =>
      let d2 := takeDigits r2
      if d2.1.isEmpty || hasLeadingZero d2.1 then none
      else
        match d2.2 with
        | '.' :: r4 =>
          let d3 := takeDigits r4
          if d3.1.isEmpty || hasLeadingZero d3.1 then none
          else
            match parseTail d3.2 with
            | none => none
            | some ids =>
              some ⟨digitsToNat d1.1, digitsToNat d2.1, digitsToNat d3.1, ids⟩
        | _ => none
    | _ => none

/-- Modelled from the spec: `semver::version::from_string_noexcept` of the
vendored semver library (absent from the sources).  Per §4.1 it "parses
both inputs as semantic versions (major.minor.patch, optional pre-release
/ build metadata)"; a string that does not have that shape fails to
parse. -/
def semverFromString (s : String) : Option SemVer :=
  parseMMP s.data

/-- Lexicographic order on character lists by code point (ASCII order on
the identifier alphabet). -/
def charListLt : List Char → List Char → Bool
  | [], [] => false
  | [], _ :: _ => true
  | _ :: _, [] => false
  | a :: as, b :: bs =>
    if a = b then charListLt as bs else decide (a.toNat < b.toNat)

/-- Precedence of single pre-release identifiers: numeric < alphanumeric,
numeric by value, alphanumeric lexically. -/
def preIdLt : PreId → PreId → Bool
  | PreId.num a, PreId.num b => decide (a < b)
  | PreId.num _, PreId.str _ => true
  | PreId.str _, PreId.num _ => false
  | PreId.str a, PreId.str b => charListLt a.data b.data

/-- Lexicographic order on nonempty pre-release identifier lists; a list
that is a proper front segment of the other is smaller. -/
def preLexLt : List PreId → List PreId → Bool
  | [], [] => false
  | [], _ :: _ => true
  | _ :: _, [] => false
  | a :: as, b :: bs => if a = b then preLexLt as bs else preIdLt a b

/-- Modelled from the spec: `operator<` of the vendored semver library
(absent from the sources).  Per §4.1 "comparison follows standard
semantic-version precedence (major, then minor, then patch, then
pre-release tag ordering)"; a version with a pre-release tag precedes the
same version without one. -/
def semverLt (a b : SemVer) : Bool :=
  if a.major ≠ b.major then decide (a.major < b.major)
  else if a.minor ≠ b.minor then decide (a.minor < b.minor)
  else if a.patch ≠ b.patch then decide (a.patch < b.patch)
  else
    match a.pre, b.pre with
    | [], _ => false
    | _ :: _, [] => true
    | x :: xs, y :: ys => preLexLt (x :: xs) (y :: ys)

/-- `Updates::isDowngradeOf` (Updates.cpp lines 45-64): parse the online
version, returning `false` if that fails; parse the current version,
returning `false` if that fails; otherwise compare. -/
def isDowngradeOf (online current : String) : Bool :=
  match semverFromString online with
  | none => false
  | some onlineVersion =>
    match semverFromString current with
    | none => false
    | some currentVersion => semverLt onlineVersion currentVersion

/-! ### The update state machine operations -/

/-- The compile-time platform selector (`Q_OS_WIN` / `Q_OS_MACOS` /
`Q_OS_LINUX` / none of those). -/
inductive Platform where
  | windows
  | macos
  | linux
  | other
deriving DecidableEq, Repr

/-- The environment probes read at the top of `Updates::checkForUpdates`:
`Version::isSupportedOS`, `Version::isFlatpak`, `Modes::isNightly`. -/
structure VersionFlags where
  isSupportedOS : Bool
  isFlatpak : Bool
  isNightly : Bool
deriving DecidableEq, Repr

/-- The release endpoint's JSON response, reduced to exactly the three
string fields the `onSuccess` handler checks with `isString()`:
`tag_name`, `download.installer.url` and `download.portable.url`.  A
field is `some s` precisely when it is present and is a JSON string
(Qt's `toObject()` on a missing value yields an empty object, so a
missing intermediate object also ends in a non-string leaf). -/
structure ReleaseResponse where
  tag_name : Option String
  installerUrl : Option String
  portableUrl : Option String
deriving DecidableEq, Repr

/-- Outcome of the metadata fetch.  `failure` covers network errors,
non-2xx responses and the 60 s timeout, all of which fire the request's
error path. -/
inductive FetchResult where
  | success (r : ReleaseResponse)
  | failure
deriving DecidableEq, Repr

/-- The fixed release-metadata endpoint of `Updates::checkForUpdates`. -/
def apiUrl : String := "https://chatterinohomies.com/api/latest-release"

/-- The `onSuccess` handler of `Updates::checkForUpdates` (Updates.cpp
lines 254-325).  On Windows all three fields are required; on every other
platform the handler returns right after the `tag_name` check (the
`#else` branch at line 307) without touching any state. -/
def checkOnSuccess (platform : Platform) (st : UpdatesState)
    (r : ReleaseResponse) : UpdatesState × List Event :=
  match r.tag_name with
  | none => setStatus_ st Status.SearchFailed
  | some tag =>
    match platform with
    | Platform.windows =>
      match r.installerUrl with
      | none => setStatus_ st Status.SearchFailed
      | some exeUrl =>
        let st1 := { st with updateExe_ := exeUrl }
        match r.portableUrl with
        | none => setStatus_ st1 Status.SearchFailed
        | some portUrl =>
          let st2 := { st1 with updatePortable_ := portUrl, onlineVersion_ := tag }
          if "v." ++ st2.currentVersion_ ≠ tag then
            let r3 := setStatus_ st2 Status.UpdateAvailable
            ({ r3.1 with isDowngrade_ := isDowngradeOf tag st2.currentVersion_ }, r3.2)
          else
            setStatus_ st2 Status.NoUpdateAvailable
    | _ => (st, [])

/-- `Updates::checkForUpdates` (Updates.cpp lines 226-328): three guards
that return without any effect, then the network request is dispatched,
status moves to `Searching`, and — once the fetch completes — the
`onSuccess` handler runs.  The request registers no `onError` handler, so
a failed or timed-out fetch runs no callback at all. -/
def checkForUpdates (flags : VersionFlags) (platform : Platform)
    (fetch : FetchResult) (st : UpdatesState) : UpdatesState × List Event :=
  if !flags.isSupportedOS then (st, [])
  else if flags.isFlatpak then (st, [])
  else if flags.isNightly then (st, [])
  else
    let r1 := setStatus_ st Status.Searching
    match fetch with
    | FetchResult.failure =>
      (r1.1, Event.networkRequest apiUrl :: r1.2)
    | FetchResult.success resp =>
      let r2 := checkOnSuccess platform r1.1 resp
      (r2.1, Event.networkRequest apiUrl :: (r1.2 ++ r2.2))

/-- Outcome of the artifact download inside `Updates::installUpdates`. -/
inductive DownloadResult where
  | success
  | failure
deriving DecidableEq, Repr

/-- Oracles for one `installUpdates` invocation: `Paths::isPortable`, the
download outcome, the return value of `QFile::write` (bytes written, or
`-1` on error) and the return value of `QProcess::startDetached`. -/
structure InstallEnv where
  isPortable : Bool
  download : DownloadResult
  writeResult : Int
  launchOk : Bool
deriving DecidableEq, Repr

/-- `Updates::installUpdates` (Updates.cpp lines 76-224).  Status guard,
then platform dispatch: macOS opens the installer URL in the browser,
Linux opens the update guide, Windows downloads either the portable zip
or the installer.  The write is considered failed exactly when
`QFile::write` returns `-1`.  In the portable path `startDetached`'s
result is ignored and `QApplication::exit(0)` runs unconditionally after
a non-`-1` write; in the installer path `exit(0)` runs only when
`startDetached` returned true. -/
def installUpdates (platform : Platform) (env : InstallEnv)
    (st : UpdatesState) : UpdatesState × List Event :=
  if st.status_ ≠ Status.UpdateAvailable then
    (st, [Event.assertionFailure])
  else
    match platform with
    | Platform.macos => (st, [Event.messageBox, Event.openUrl st.updateExe_])
    | Platform.linux => (st, [Event.messageBox, Event.openUrl st.updateGuideLink_])
    | Platform.other => (st, [])
    | Platform.windows =>
      if env.isPortable then
        let r1 := setStatus_ st Status.Downloading
        let pre := Event.messageBox :: Event.networkRequest st.updatePortable_ :: r1.2
        match env.download with
        | DownloadResult.failure =>
          let r2 := setStatus_ r1.1 Status.DownloadFailed
          (r2.1, pre ++ r2.2 ++ [Event.messageBox])
        | DownloadResult.success =>
          if env.writeResult = -1 then
            let r2 := setStatus_ r1.1 Status.WriteFileFailed
            (r2.1, pre ++ [Event.fileWrite "update.zip"] ++ r2.2)
          else
            (r1.1, pre ++ [Event.fileWrite "update.zip",
                           Event.processLaunch "updater.1/ChatterinoUpdater.exe",
                           Event.exitRequested])
      else
        let r1 := setStatus_ st Status.Downloading
        let pre := Event.messageBox :: Event.networkRequest st.updateExe_ :: r1.2
        match env.download with
        | DownloadResult.failure =>
          let r2 := setStatus_ r1.1 Status.DownloadFailed
          (r2.1, pre ++ r2.2 ++ [Event.messageBox])
        | DownloadResult.success =>
          if env.writeResult = -1 then
            let r2 := setStatus_ r1.1 Status.WriteFileFailed
            (r2.1, pre ++ [Event.fileWrite "Update.exe"] ++ r2.2
                       ++ [Event.messageBox, Event.openUrl st.updateExe_])
          else
            if env.launchOk then
              (r1.1, pre ++ [Event.fileWrite "Update.exe",
                             Event.processLaunch "Update.exe",
                             Event.exitRequested])
            else
              (r1.1, pre ++ [Event.fileWrite "Update.exe",
                             Event.processLaunch "Update.exe",
                             Event.messageBox, Event.openUrl st.updateExe_])

/-- `Updates::isError` (Updates.cpp lines 351-363). -/
def isError (st : UpdatesState) : Bool :=
  match st.status_ with
  | Status.SearchFailed => true
  | Status.DownloadFailed => true
  | Status.WriteFileFailed => true
  | _ => false

/-- `Updates::shouldShowUpdateButton` (Updates.cpp lines 335-349). -/
def shouldShowUpdateButton (st : UpdatesState) : Bool :=
  match st.status_ with
  | Status.UpdateAvailable => true
  | Status.SearchFailed => true
  | Status.Downloading => true
  | Status.DownloadFailed => true
  | Status.WriteFileFailed => true
  | _ => false

/-! ### Concrete fixtures used by the scenario theorems -/

/-- Flags under which every guard of `checkForUpdates` passes. -/
def flagsOK : VersionFlags :=
  { isSupportedOS := true, isFlatpak := false, isNightly := false }

/-- The freshly constructed singleton (`Updates::Updates`) with build
version `2.0.0`, as in the spec's scenarios. -/
def initialState : UpdatesState :=
  { status_ := Status.Idle
    currentVersion_ := "2.0.0"
    onlineVersion_ := ""
    isDowngrade_ := false
    updateExe_ := ""
    updatePortable_ := ""
    updateGuideLink_ := "https://chatterino.com" }

/-- A state in which a check has found an update, ready for
`installUpdates`. -/
def availableState : UpdatesState :=
  { status_ := Status.UpdateAvailable
    currentVersion_ := "2.0.0"
    onlineVersion_ := "v.1.0.0"
    isDowngrade_ := false
    updateExe_ := "https://example.com/installer.exe"
    updatePortable_ := "https://example.com/portable.zip"
    updateGuideLink_ := "https://chatterino.com" }

/-- Release metadata carrying tag `v.1.0.0` with both download URLs. -/
def responseV1 : ReleaseResponse :=
  { tag_name := some "v.1.0.0"
    installerUrl := some "https://example.com/installer.exe"
    portableUrl := some "https://example.com/portable.zip" }

/-- Release metadata whose tag equals the current version string
`2.0.0` exactly (no `v.` convention). -/
def responseEqTag : ReleaseResponse :=
  { tag_name := some "2.0.0"
    installerUrl := some "https://example.com/installer.exe"
    portableUrl := some "https://example.com/portable.zip" }

/-- Release metadata missing the `tag_name` string. -/
def responseNoTag : ReleaseResponse :=
  { tag_name := none
    installerUrl := some "https://example.com/installer.exe"
    portableUrl := some "https://example.com/portable.zip" }

/-- Windows portable install whose `QFile::write` returns `0` bytes. -/
def zeroWriteEnv : InstallEnv :=
  { isPortable := true, download := DownloadResult.success
    writeResult := 0, launchOk := true }

/-- Windows portable install whose `QFile::write` returns `-1`. -/
def failWriteEnv : InstallEnv :=
  { isPortable := true, download := DownloadResult.success
    writeResult := -1, launchOk := true }

/-- Windows installer-path install where the write succeeds but
`QProcess::startDetached` fails. -/
def launchFailEnv : InstallEnv :=
  { isPortable := false, download := DownloadResult.success
    writeResult := 100, launchOk := false }

/-! ### Helper lemmas -/

/-- Normal form of `setStatus_`: the status field is always overwritten
(possibly with its old value) and a publication happens exactly on
change. -/
theorem setStatus_eq (st : UpdatesState) (s : Status) :
    setStatus_ st s =
      ({ st with status_ := s },
       if st.status_ = s then [] else [Event.statusChanged s]) := by
  obtain ⟨st0, cv, ov, dg, ue, up, gl⟩ := st
  unfold setStatus_
  by_cases h : st0 = s
  · subst h
    simp
  · simp [h]

/-- `preLexLt` is irreflexive. -/
theorem preLexLt_irrefl : ∀ l : List PreId, preLexLt l l = false
  | [] => rfl
  | _ :: as => by simp [preLexLt, preLexLt_irrefl as]

/-- `semverLt` is irreflexive. -/
theorem semverLt_irrefl (v : SemVer) : semverLt v v = false := by
  unfold semverLt
  simp only [ne_eq, not_true_eq_false, if_false, ite_false]
  cases h : v.pre with
  | nil => simp
  | cons a as => simpa using preLexLt_irrefl (a :: as)

/-! ### Claim theorems -/

/-- C1: the claim says that once a dispatched metadata fetch completes —
success, failure or timeout — the status ends terminal (`UpdateAvailable`,
`NoUpdateAvailable` or `SearchFailed`), never `Searching`, and that a
fetch failure or timeout yields `SearchFailed`.  The code registers no
error handler on the request, so on a failed (or timed-out) fetch no
callback runs and the status remains `Searching`: this theorem evaluates
`checkForUpdates` at that failing input. -/
theorem checkForUpdates_failure_stays_searching :
    (checkForUpdates flagsOK Platform.windows FetchResult.failure
        initialState).1.status_ = Status.Searching ∧
    (checkForUpdates flagsOK Platform.windows FetchResult.failure
        initialState).1.status_ ≠ Status.SearchFailed ∧
    Event.networkRequest apiUrl ∈
      (checkForUpdates flagsOK Platform.windows FetchResult.failure
        initialState).2 := by
  decide

/-- C2: the claim (and the spec scenario) says a fetched tag `v.1.0.0`
against current version `2.0.0` yields `UpdateAvailable` with
`is_downgrade == true`.  The code does set `UpdateAvailable`, but it
passes the raw tag — still carrying the `v.` prefix — to
`isDowngradeOf`, where it fails semantic-version parsing, so the flag
comes out `false`; stripping the prefix (as the spec's §6 describes)
would have produced `true`. -/
theorem checkForUpdates_downgrade_scenario :
    (checkForUpdates flagsOK Platform.windows (FetchResult.success responseV1)
        initialState).1.status_ = Status.UpdateAvailable ∧
    (checkForUpdates flagsOK Platform.windows (FetchResult.success responseV1)
        initialState).1.isDowngrade_ = false ∧
    semverFromString "v.1.0.0" = none ∧
    isDowngradeOf "1.0.0" "2.0.0" = true := by
  decide

/-- C3 counterexample: the claim says that a fetched tag equal to the
current version string yields `NoUpdateAvailable`; but the code compares
the tag against `"v." ++ current`, so tag `2.0.0` with current version
`2.0.0` yields `UpdateAvailable`. -/
theorem checkForUpdates_equal_tag_counterexample :
    (checkForUpdates flagsOK Platform.windows (FetchResult.success responseEqTag)
        initialState).1.status_ = Status.UpdateAvailable ∧
    (checkForUpdates flagsOK Platform.windows (FetchResult.success responseEqTag)
        initialState).1.status_ ≠ Status.NoUpdateAvailable := by
  decide

/-- C3 amended: on a successful fetch with all required fields present
(Windows), if the fetched tag equals `"v." ++ current_version` the status
becomes `NoUpdateAvailable` and `is_downgrade` is left unchanged;
otherwise the status becomes `UpdateAvailable`, `online_version` is set
to the fetched tag and `is_downgrade` is computed by the version
comparator. -/
theorem checkForUpdates_success_spec (st : UpdatesState)
    (tag exeUrl portUrl : String) :
    (checkForUpdates flagsOK Platform.windows
        (FetchResult.success ⟨some tag, some exeUrl, some portUrl⟩) st).1.status_
      = (if "v." ++ st.currentVersion_ = tag then Status.NoUpdateAvailable
         else Status.UpdateAvailable) ∧
    (checkForUpdates flagsOK Platform.windows
        (FetchResult.success ⟨some tag, some exeUrl, some portUrl⟩) st).1.onlineVersion_
      = tag ∧
    (checkForUpdates flagsOK Platform.windows
        (FetchResult.success ⟨some tag, some exeUrl, some portUrl⟩) st).1.isDowngrade_
      = (if "v." ++ st.currentVersion_ = tag then st.isDowngrade_
         else isDowngradeOf tag st.currentVersion_) := by
  by_cases h : "v." ++ st.currentVersion_ = tag
  · simp [checkForUpdates, checkOnSuccess, setStatus_eq, flagsOK, h]
  · simp [checkForUpdates, checkOnSuccess, setStatus_eq, flagsOK, h]

/-- C4: `isDowngradeOf online current` is true exactly when both strings
parse as semantic versions and the online one sorts strictly below the
current one; any unparseable input gives `false` (the function is total,
so it cannot raise); and it is irreflexive. -/
theorem isDowngradeOf_spec :
    (∀ online current, isDowngradeOf online current = true ↔
       ∃ vo vc, semverFromString online = some vo ∧
         semverFromString current = some vc ∧ semverLt vo vc = true) ∧
    (∀ online current,
       semverFromString online = none ∨ semverFromString current = none →
       isDowngradeOf online current = false) ∧
    (∀ a, isDowngradeOf a a = false) := by
  refine ⟨?_, ?_, ?_⟩
  · intro o c
    unfold isDowngradeOf
    cases ho : semverFromString o with
    | none => simp
    | some vo =>
      cases hc : semverFromString c with
      | none => simp
      | some vc => simp
  · intro o c h
    unfold isDowngradeOf
    rcases h with h | h
    · simp [h]
    · cases ho : semverFromString o <;> simp [h]
  · intro a
    unfold isDowngradeOf
    cases h : semverFromString a with
    | none => rfl
    | some v => exact semverLt_irrefl v

/-- C4 witness. -/
theorem isDowngradeOf_spec_witness : isDowngradeOf "1.2.3" "1.2.3" = false :=
  isDowngradeOf_spec.2.2 "1.2.3"

/-- C5: calling `installUpdates` while the status is not
`UpdateAvailable` trips the assertion and returns at once: the state is
returned unchanged and the only recorded effect is the assertion failure
— no network request, no file write, no launch. -/
theorem installUpdates_precondition (platform : Platform) (env : InstallEnv)
    (st : UpdatesState) (h : st.status_ ≠ Status.UpdateAvailable) :
    installUpdates platform env st = (st, [Event.assertionFailure]) := by
  unfold installUpdates
  simp [h]

/-- C5 witness. -/
theorem installUpdates_precondition_witness :
    installUpdates Platform.windows zeroWriteEnv initialState
      = (initialState, [Event.assertionFailure]) :=
  installUpdates_precondition Platform.windows zeroWriteEnv initialState (by decide)

/-- C6 counterexample: the claim says a zero-byte write also yields
`WriteFileFailed` with no process exit; but the code only treats a `-1`
return of `QFile::write` as failure, so a zero-byte write in the portable
path proceeds to launch the updater and request process exit, leaving the
status at `Downloading`. -/
theorem installUpdates_zero_write_counterexample :
    (installUpdates Platform.windows zeroWriteEnv availableState).1.status_
        ≠ Status.WriteFileFailed ∧
    (installUpdates Platform.windows zeroWriteEnv availableState).1.status_
        = Status.Downloading ∧
    Event.exitRequested ∈
      (installUpdates Platform.windows zeroWriteEnv availableState).2 := by
  decide

/-- C6 amended: whenever the write call reports failure (`QFile::write`
returns `-1`) while persisting the downloaded artifact, the status
becomes `WriteFileFailed` and no process exit is requested in that
invocation (both the portable and the installer path). -/
theorem installUpdates_write_failure (env : InstallEnv) (st : UpdatesState)
    (hs : st.status_ = Status.UpdateAvailable)
    (hd : env.download = DownloadResult.success)
    (hw : env.writeResult = -1) :
    (installUpdates Platform.windows env st).1.status_ = Status.WriteFileFailed ∧
    Event.exitRequested ∉ (installUpdates Platform.windows env st).2 := by
  obtain ⟨p, d, w, l⟩ := env
  simp only at hd hw
  subst hd hw
  cases p <;> simp [installUpdates, setStatus_eq, hs]

/-- C6 witness. -/
theorem installUpdates_write_failure_witness :
    (installUpdates Platform.windows failWriteEnv availableState).1.status_
        = Status.WriteFileFailed ∧
    Event.exitRequested ∉
      (installUpdates Platform.windows failWriteEnv availableState).2 :=
  installUpdates_write_failure failWriteEnv availableState
    (by decide) (by decide) (by decide)

/-- C7 counterexample: the claim says that in the installer path a
successful write followed by a failed launch leaves the status
"reflecting failure"; but the code changes no status in that branch, so
the status stays `Downloading`, which is not one of the error statuses
(`isError` is false).  The process-stays-alive half does hold. -/
theorem installUpdates_launch_failure_counterexample :
    (installUpdates Platform.windows launchFailEnv availableState).1.status_
        = Status.Downloading ∧
    isError (installUpdates Platform.windows launchFailEnv availableState).1
        = false ∧
    Event.exitRequested ∉
      (installUpdates Platform.windows launchFailEnv availableState).2 := by
  decide

/-- C7 amended: in the installer path, when the write succeeds but the
launch fails, no process exit is requested and the user is pointed at the
manual download URL, but the status is left at `Downloading` (no failure
status is set); and in every Windows path a process exit is requested
only when the download succeeded and the write call did not report
failure. -/
theorem installUpdates_launch_spec (env : InstallEnv) (st : UpdatesState)
    (hs : st.status_ = Status.UpdateAvailable) :
    (env.isPortable = false → env.download = DownloadResult.success →
      env.writeResult ≠ -1 → env.launchOk = false →
      (installUpdates Platform.windows env st).1.status_ = Status.Downloading ∧
      Event.exitRequested ∉ (installUpdates Platform.windows env st).2 ∧
      Event.openUrl st.updateExe_ ∈ (installUpdates Platform.windows env st).2) ∧
    (Event.exitRequested ∈ (installUpdates Platform.windows env st).2 →
      env.download = DownloadResult.success ∧ env.writeResult ≠ -1) := by
  obtain ⟨p, d, w, l⟩ := env
  cases p <;> cases d <;> by_cases hw : w = -1 <;> cases l <;>
    simp [installUpdates, setStatus_eq, hs, hw]

/-- C7 witness. -/
theorem installUpdates_launch_spec_witness :
    (installUpdates Platform.windows launchFailEnv availableState).1.status_
        = Status.Downloading ∧
    Event.exitRequested ∉
      (installUpdates Platform.windows launchFailEnv availableState).2 ∧
    Event.openUrl availableState.updateExe_ ∈
      (installUpdates Platform.windows launchFailEnv availableState).2 :=
  (installUpdates_launch_spec launchFailEnv availableState (by decide)).1
    (by decide) (by decide) (by decide) (by decide)

/-- C8: when the build is nightly, the OS unsupported, or the
distribution channel (Flatpak) manages its own updates,
`checkForUpdates` returns at once: the state — status included — is
unchanged and no effect at all (in particular no network request) is
recorded. -/
theorem checkForUpdates_guards (flags : VersionFlags) (platform : Platform)
    (fetch : FetchResult) (st : UpdatesState)
    (h : flags.isSupportedOS = false ∨ flags.isFlatpak = true ∨
         flags.isNightly = true) :
    checkForUpdates flags platform fetch st = (st, []) := by
  unfold checkForUpdates
  rcases h with h | h | h
  · simp [h]
  · cases hs : flags.isSupportedOS <;> simp [hs, h]
  · cases hs : flags.isSupportedOS <;> cases hf : flags.isFlatpak <;>
      simp [hs, hf, h]

/-- C8 witness: a nightly build with status `Idle` stays at `Idle`. -/
theorem checkForUpdates_guards_witness :
    checkForUpdates ⟨true, false, true⟩ Platform.windows FetchResult.failure
        initialState = (initialState, []) ∧
    initialState.status_ = Status.Idle :=
  ⟨checkForUpdates_guards ⟨true, false, true⟩ Platform.windows
      FetchResult.failure initialState (Or.inr (Or.inr rfl)), rfl⟩

/-- C9: on the Windows platform, a response whose `tag_name` is not a
string, or whose installer URL or portable URL is not a string, drives
the status to `SearchFailed` — the same user-visible status in all three
cases, and distinct from `NoUpdateAvailable`. -/
theorem checkForUpdates_malformed (st : UpdatesState) (r : ReleaseResponse)
    (h : r.tag_name = none ∨ r.installerUrl = none ∨ r.portableUrl = none) :
    (checkForUpdates flagsOK Platform.windows (FetchResult.success r) st).1.status_
        = Status.SearchFailed ∧
    Status.SearchFailed ≠ Status.NoUpdateAvailable := by
  obtain ⟨t, i, pu⟩ := r
  refine ⟨?_, by decide⟩
  rcases h with h | h | h
  · subst h
    simp [checkForUpdates, checkOnSuccess, setStatus_eq, flagsOK]
  · subst h
    cases t <;> simp [checkForUpdates, checkOnSuccess, setStatus_eq, flagsOK]
  · subst h
    cases t <;> cases i <;>
      simp [checkForUpdates, checkOnSuccess, setStatus_eq, flagsOK]

/-- C9 witness. -/
theorem checkForUpdates_malformed_witness :
    (checkForUpdates flagsOK Platform.windows (FetchResult.success responseNoTag)
        initialState).1.status_ = Status.SearchFailed ∧
    Status.SearchFailed ≠ Status.NoUpdateAvailable :=
  checkForUpdates_malformed initialState responseNoTag (Or.inl rfl)

/-- C10: `setStatus_` called with a value equal to the stored status
leaves the state unchanged and publishes nothing; it always stores the
requested status; and a notification carrying the new status is published
exactly when the stored status actually changes. -/
theorem setStatus_publish_iff_changed (st : UpdatesState) (s : Status) :
    (s = st.status_ → setStatus_ st s = (st, [])) ∧
    (setStatus_ st s).1.status_ = s ∧
    (Event.statusChanged s ∈ (setStatus_ st s).2 ↔
      (setStatus_ st s).1.status_ ≠ st.status_) ∧
    (s ≠ st.status_ →
      (setStatus_ st s).2 = [Event.statusChanged s]) := by
  obtain ⟨st0, cv, ov, dg, ue, up, gl⟩ := st
  by_cases h : st0 = s
  · subst h
    simp [setStatus_eq]
  · simp [setStatus_eq, h, Ne.symm h]

/-- C10 witness. -/
theorem setStatus_publish_iff_changed_witness :
    setStatus_ initialState Status.Idle = (initialState, []) :=
  (setStatus_publish_iff_changed initialState Status.Idle).1 (by decide)

end Chatterino
